import Mathlib

/-!
Shallow embedding of the Super Simple Stocks valuation engine
(`stocks.py`): trades, per-stock metrics (volume-weighted price,
dividend yield, P/E ratio), the GBCE share index, and symbol lookup.

Modelling conventions:
* Python numbers are embedded as `Int` (Python ints) and `Rat`
  (Python floats, treated as exact rationals; the claims under study
  are algebraic, not about rounding).
* `datetime` values are embedded as `Int` seconds; `timedelta(minutes=15)`
  is `minutes 15 = 900` seconds.  `datetime.now()` is passed explicitly
  as the `now` argument of each query.
* A Python expression that may raise is embedded as `PyResult`:
  `ok v` is a normal return, `exn name payload` an exception with its
  class name and message.
-/

/-- Result of running a piece of Python code: a value or an exception
(carrying the exception class name and its message). -/
inductive PyResult (α : Type) where
  | ok : α → PyResult α
  | exn : String → String → PyResult α
deriving DecidableEq, Repr

/-- `Trade` from `stocks.py`: one transaction.  Class-attribute defaults
are `timestamp = None` (never the case for trades built through
`Stock.trade`, so the timestamp is embedded as a plain `Int`),
`quantity = 0`, `direction = ""`, `price = 0`. -/
structure Trade where
  timestamp : Int
  quantity : Int
  direction : String
  price : Rat
deriving DecidableEq, Repr

/-- `Trade.__init__` sets the four attributes from keyword arguments and
performs no validation whatsoever (unknown keywords are silently
dropped; known ones are stored as given). -/
def Trade.init (timestamp : Int) (quantity : Int) (direction : String)
    (price : Rat) : Trade :=
  { timestamp := timestamp, quantity := quantity, direction := direction,
    price := price }

/-- `Stock` from `stocks.py`: static data plus the append-only trade
ledger. -/
structure Stock where
  symbol : String
  type : String
  last_dividend : Int
  fixed_dividend : Rat
  par_value : Int
  trades : List Trade
deriving DecidableEq, Repr

/-- `Stock.COMMON` constant. -/
def Stock.COMMON : String := "Common"

/-- `Stock.PREFERRED` constant. -/
def Stock.PREFERRED : String := "Preferred"

/-- `Stock.__init__`: initializes the ledger to the empty list, sets the
attributes from keyword arguments, then asserts
`self.type in (Stock.COMMON, Stock.PREFERRED)`; the failed assertion is
an `AssertionError`. -/
def Stock.init (symbol : String) (ty : String) (last_dividend : Int)
    (fixed_dividend : Rat) (par_value : Int) : PyResult Stock :=
  if ty = Stock.COMMON ∨ ty = Stock.PREFERRED then
    PyResult.ok { symbol := symbol, type := ty,
                  last_dividend := last_dividend,
                  fixed_dividend := fixed_dividend,
                  par_value := par_value, trades := [] }
  else
    PyResult.exn ("AssertionError")
      ("Stock type must be \x27Common\x27 or \x27Preferred\x27")

/-- `timedelta(minutes=m)` in seconds. -/
def minutes (m : Int) : Int := m * 60

/-- `Stock.recent_trades`: `filter(_key, self.trades)` where
`_key t = (t.timestamp >= _threshold)` and
`_threshold = datetime.now() - timedelta(minutes=15)`. -/
def Stock.recent_trades (trades : List Trade) (now : Int) : List Trade :=
  trades.filter (fun t => decide (now - minutes 15 ≤ t.timestamp))

/-- `Stock.price`: `_total_quantity` is `sum(...)` over the recent
trades, `_total_price` is accumulated by a `for` loop starting from
`0.0`; if `_total_price == 0` return `0`, else divide (Python raises
`ZeroDivisionError` if the divisor `_total_quantity` is zero there). -/
def Stock.price (trades : List Trade) (now : Int) : PyResult Rat :=
  let r := Stock.recent_trades trades now
  let total_quantity : Int := r.foldl (fun acc t => acc + t.quantity) 0
  let total_price : Rat :=
    r.foldl (fun acc t => acc + (t.quantity : Rat) * t.price) 0
  if total_price = 0 then PyResult.ok 0
  else if total_quantity = 0 then
    PyResult.exn ("ZeroDivisionError") ("division by zero")
  else PyResult.ok (total_price / (total_quantity : Rat))

/-- Total traded quantity over a list of trades, written as the
specification writes it: `Σ quantity`. -/
def totalQuantity (l : List Trade) : Int :=
  (l.map Trade.quantity).sum

/-- Total traded value over a list of trades, written as the
specification writes it: `Σ (quantity * price)`. -/
def totalNotional (l : List Trade) : Rat :=
  (l.map (fun t => (t.quantity : Rat) * t.price)).sum

/-- The value `Stock.price` returns whenever it does not raise: the
volume-weighted average with the documented `0` floor at zero
notional. -/
def priceVal (trades : List Trade) (now : Int) : Rat :=
  let r := Stock.recent_trades trades now
  if totalNotional r = 0 then 0 else totalNotional r / (totalQuantity r : Rat)

/-- `Stock.dividend_yield`: `last_dividend / price` for a COMMON stock,
`(fixed_dividend * par_value) / price` for a PREFERRED one; for any
other `type` the Python function falls through both branches and
returns `None` (embedded as `ok none`).  A zero divisor raises
`ZeroDivisionError`; an exception out of `price` propagates. -/
def Stock.dividend_yield (s : Stock) (now : Int) : PyResult (Option Rat) :=
  if s.type = Stock.COMMON then
    match Stock.price s.trades now with
    | PyResult.exn n m => PyResult.exn n m
    | PyResult.ok p =>
      if p = 0 then PyResult.exn ("ZeroDivisionError") ("division by zero")
      else PyResult.ok (some ((s.last_dividend : Rat) / p))
  else if s.type = Stock.PREFERRED then
    match Stock.price s.trades now with
    | PyResult.exn n m => PyResult.exn n m
    | PyResult.ok p =>
      if p = 0 then PyResult.exn ("ZeroDivisionError") ("division by zero")
      else PyResult.ok (some ((s.fixed_dividend * (s.par_value : Rat)) / p))
  else PyResult.ok none

/-- `Stock.PE_ratio`: `self.dividend_yield / self.price`.  Python
evaluates `dividend_yield` first (its exception propagates); if it
returned `None` the division is a `TypeError`; then `price` is
evaluated, and a zero price raises `ZeroDivisionError`. -/
def Stock.PE_ratio (s : Stock) (now : Int) : PyResult Rat :=
  match Stock.dividend_yield s now with
  | PyResult.exn n m => PyResult.exn n m
  | PyResult.ok none =>
    PyResult.exn ("TypeError")
      ("unsupported operand type for /: NoneType and float")
  | PyResult.ok (some dy) =>
    match Stock.price s.trades now with
    | PyResult.exn n m => PyResult.exn n m
    | PyResult.ok p =>
      if p = 0 then PyResult.exn ("ZeroDivisionError") ("division by zero")
      else PyResult.ok (dy / p)

/-- `Stock.trade`: `self.trades.append(Trade(**kw))` — builds the trade
with no validation and appends it to the ledger. -/
def Stock.trade (s : Stock) (timestamp : Int) (quantity : Int)
    (direction : String) (price : Rat) : Stock :=
  { s with trades := s.trades ++ [Trade.init timestamp quantity direction price] }

/-- `Stocks.get`: linear scan of the market for the symbol; raises
`ValueError` mentioning the symbol when no stock matches. -/
def Stocks.get (stocks : List Stock) (symbol : String) : PyResult Stock :=
  match stocks.find? (fun s => decide (s.symbol = symbol)) with
  | some s => PyResult.ok s
  | none =>
    PyResult.exn ("ValueError")
      ("Stock symbol \x27" ++ symbol ++ "\x27 is not registered")

/-- `tuple(_stock.price for _stock in self)`: evaluates every stock's
price left to right; the first exception propagates. -/
def Stocks.mapPrices (stocks : List Stock) (now : Int) : PyResult (List Rat) :=
  match stocks with
  | [] => PyResult.ok []
  | s :: rest =>
    match Stock.price s.trades now with
    | PyResult.exn n m => PyResult.exn n m
    | PyResult.ok p =>
      match Stocks.mapPrices rest now with
      | PyResult.exn n m => PyResult.exn n m
      | PyResult.ok ps => PyResult.ok (p :: ps)

/-- `Stocks.GBCE_share_index`: `reduce(operator.mul, prices)` — a
`TypeError` on an empty market — followed by `product ** (1 / n)`.
CPython 2 `float.__pow__` raises `ValueError` when the base is
negative and the exponent is not an integral value — here the exponent
`1 / n` is integral exactly when `n = 1`, i.e. when its denominator as
a rational is 1; otherwise the power is embedded with real
exponentiation (`Real.rpow`). -/
noncomputable def Stocks.GBCE_share_index (stocks : List Stock) (now : Int) :
    PyResult Real :=
  match Stocks.mapPrices stocks now with
  | PyResult.exn n m => PyResult.exn n m
  | PyResult.ok [] =>
    PyResult.exn ("TypeError")
      ("reduce() of empty sequence with no initial value")
  | PyResult.ok (p :: ps) =>
    let product : Rat := ps.foldl (fun a b => a * b) p
    if product < 0 ∧ ((1 : Rat) / (stocks.length : Rat)).den ≠ 1 then
      PyResult.exn ("ValueError")
        ("negative number cannot be raised to a fractional power")
    else
      PyResult.ok ((product : Real) ^ ((1 : Real) / (stocks.length : Real)))

section Helpers

/-- A left fold that adds `f x` at each step is `sum ∘ map f`. -/
theorem foldl_add_eq_sum {α M : Type} [AddCommMonoid M] (f : α → M) :
    ∀ (l : List α) (a : M), l.foldl (fun acc x => acc + f x) a = a + (l.map f).sum
  | [], a => by simp
  | x :: xs, a => by
    rw [List.foldl_cons, foldl_add_eq_sum f xs (a + f x), List.map_cons,
      List.sum_cons, add_assoc]

/-- A list of nonnegative integers has a nonnegative sum. -/
theorem quantity_sum_nonneg (l : List Trade)
    (h : ∀ t ∈ l, 0 ≤ t.quantity) : 0 ≤ totalQuantity l := by
  induction l with
  | nil => simp [totalQuantity]
  | cons x xs ih =>
    have hx := h x (List.mem_cons_self x xs)
    have hxs := ih (fun t ht => h t (List.mem_cons_of_mem x ht))
    simp only [totalQuantity, List.map_cons, List.sum_cons]
    exact add_nonneg hx hxs

/-- If all quantities are nonnegative and they sum to zero, every
quantity is zero, so the notional is zero as well. -/
theorem notional_zero_of_quantity_zero (l : List Trade)
    (h : ∀ t ∈ l, 0 ≤ t.quantity) (hq : totalQuantity l = 0) :
    totalNotional l = 0 := by
  induction l with
  | nil => simp [totalNotional]
  | cons x xs ih =>
    have hx := h x (List.mem_cons_self x xs)
    have hxs : ∀ t ∈ xs, 0 ≤ t.quantity :=
      fun t ht => h t (List.mem_cons_of_mem x ht)
    have hsum : x.quantity + totalQuantity xs = 0 := by
      simpa [totalQuantity] using hq
    have hxz : x.quantity = 0 := by
      have := quantity_sum_nonneg xs hxs
      omega
    have hxsz : totalQuantity xs = 0 := by omega
    simp [totalNotional, hxz, ih hxs hxsz, totalNotional] at *
    simpa [totalNotional, hxz] using ih hxs hxsz

/-- Membership in the recent-trades window keeps the nonnegative
quantity hypothesis. -/
theorem recent_trades_nonneg (trades : List Trade) (now : Int)
    (h : ∀ t ∈ trades, 0 ≤ t.quantity) :
    ∀ t ∈ Stock.recent_trades trades now, 0 ≤ t.quantity :=
  fun t ht => h t (List.mem_of_mem_filter ht)

/-- Under the Trade invariant (nonnegative quantities) `Stock.price`
never raises: it returns `priceVal`. -/
theorem price_eq_ok (trades : List Trade) (now : Int)
    (h : ∀ t ∈ trades, 0 ≤ t.quantity) :
    Stock.price trades now = PyResult.ok (priceVal trades now) := by
  have hr := recent_trades_nonneg trades now h
  have h1 : ∀ l : List Trade,
      l.foldl (fun acc t => acc + t.quantity) 0 = totalQuantity l := by
    intro l
    rw [foldl_add_eq_sum Trade.quantity l 0, zero_add]
    rfl
  have h2 : ∀ l : List Trade,
      l.foldl (fun acc t => acc + (t.quantity : Rat) * t.price) 0 =
        totalNotional l := by
    intro l
    rw [foldl_add_eq_sum (fun t => (t.quantity : Rat) * t.price) l 0, zero_add]
    rfl
  unfold Stock.price priceVal
  simp only [h1, h2]
  by_cases hn : totalNotional (Stock.recent_trades trades now) = 0
  · simp [hn]
  · have hq : totalQuantity (Stock.recent_trades trades now) ≠ 0 :=
      fun h0 => hn (notional_zero_of_quantity_zero _ hr h0)
    simp [hn, hq]

/-- `Stocks.mapPrices` never raises under the Trade invariant: it
returns the list of per-stock `priceVal`s. -/
theorem mapPrices_ok (stocks : List Stock) (now : Int)
    (h : ∀ s ∈ stocks, ∀ t ∈ s.trades, 0 ≤ t.quantity) :
    Stocks.mapPrices stocks now =
      PyResult.ok (stocks.map (fun s => priceVal s.trades now)) := by
  induction stocks with
  | nil => rfl
  | cons s rest ih =>
    have hs := h s (List.mem_cons_self s rest)
    have hrest := ih (fun x hx => h x (List.mem_cons_of_mem s hx))
    simp [Stocks.mapPrices, price_eq_ok s.trades now hs, hrest]

/-- A left fold of multiplication starting at `a` is `a * prod`. -/
theorem foldl_mul_eq_prod :
    ∀ (l : List Rat) (a : Rat), l.foldl (fun x y => x * y) a = a * l.prod
  | [], a => by simp
  | x :: xs, a => by
    rw [List.foldl_cons, foldl_mul_eq_prod xs (a * x), List.prod_cons]
    ring

/-- A list of nonnegative rationals has a nonnegative product. -/
theorem prod_nonneg_of_nonneg :
    ∀ l : List Rat, (∀ x ∈ l, 0 ≤ x) → 0 ≤ l.prod
  | [], _ => by simp
  | x :: xs, h => by
    rw [List.prod_cons]
    exact mul_nonneg (h x (List.mem_cons_self x xs))
      (prod_nonneg_of_nonneg xs (fun y hy => h y (List.mem_cons_of_mem x hy)))

/-- Under the full Trade invariant (nonnegative quantity and
nonnegative price) the value computed by `Stock.price` is
nonnegative. -/
theorem priceVal_nonneg (trades : List Trade) (now : Int)
    (h : ∀ t ∈ trades, 0 ≤ t.quantity ∧ 0 ≤ t.price) :
    0 ≤ priceVal trades now := by
  have hr : ∀ t ∈ Stock.recent_trades trades now,
      0 ≤ t.quantity ∧ 0 ≤ t.price :=
    fun t ht => h t (List.mem_of_mem_filter ht)
  unfold priceVal
  by_cases hn : totalNotional (Stock.recent_trades trades now) = 0
  · simp [hn]
  · simp only [hn, if_false]
    apply div_nonneg
    · unfold totalNotional
      apply List.sum_nonneg
      intro x hx
      rw [List.mem_map] at hx
      obtain ⟨t, ht, rfl⟩ := hx
      exact mul_nonneg (by exact_mod_cast (hr t ht).1) (hr t ht).2
    · exact_mod_cast quantity_sum_nonneg _ (fun t ht => (hr t ht).1)

end Helpers

/-- C1: for every stock ledger satisfying the Trade invariant
(nonnegative quantities) and every query time, `Stock.price` returns
the volume-weighted average over the recent trades —
`total_notional / total_quantity` with `total_quantity = Σ quantity`
and `total_notional = Σ (quantity * price)` — except that when
`total_notional = 0` (in particular on an empty window, or when every
matched trade has zero price) it returns exactly `0` instead of
dividing. -/
theorem price_vwap_spec (trades : List Trade) (now : Int)
    (hq : ∀ t ∈ trades, 0 ≤ t.quantity) :
    Stock.price trades now =
      PyResult.ok
        (if ((Stock.recent_trades trades now).map
              (fun t => (t.quantity : Rat) * t.price)).sum = 0 then 0
         else ((Stock.recent_trades trades now).map
              (fun t => (t.quantity : Rat) * t.price)).sum /
            ((((Stock.recent_trades trades now).map Trade.quantity).sum : Int) :
              Rat)) := by
  rw [price_eq_ok trades now hq]
  rfl

/-- Witness for C1 at concrete inputs: one matched trade of 10 shares
at 100 gives price 100, and an empty ledger gives price 0. -/
theorem price_vwap_spec_witness :
    Stock.price
      [{ timestamp := 0, quantity := 10, direction := "BUY", price := 100 }]
      0 = PyResult.ok 100 ∧
    Stock.price [] 0 = PyResult.ok 0 := by
  have h1 := price_vwap_spec
    [{ timestamp := 0, quantity := 10, direction := "BUY", price := 100 }]
    0 (by decide)
  have h2 := price_vwap_spec [] 0 (by decide)
  rw [h1, h2]
  constructor
  · norm_num [Stock.recent_trades, minutes, List.filter]
  · norm_num [Stock.recent_trades, minutes, List.filter]

/-- C3: `Stock.recent_trades` is the subsequence of the ledger whose
timestamps are at least `now - 15 minutes` (inclusive lower bound),
preserving ledger order; if every trade is strictly older than the
window, the result is empty. -/
theorem recent_trades_window_spec (trades : List Trade) (now : Int) :
    (Stock.recent_trades trades now).Sublist trades ∧
    (∀ t : Trade, t ∈ Stock.recent_trades trades now ↔
      t ∈ trades ∧ now - minutes 15 ≤ t.timestamp) ∧
    ((∀ t ∈ trades, t.timestamp < now - minutes 15) →
      Stock.recent_trades trades now = []) := by
  refine ⟨List.filter_sublist _, ?_, ?_⟩
  · intro t
    simp [Stock.recent_trades, List.mem_filter]
  · intro h
    rw [Stock.recent_trades, List.filter_eq_nil_iff]
    intro t ht
    simpa using not_le.mpr (h t ht)

/-- Witness for C3: with `now = 1000`, a trade at `now - 16 minutes`
is excluded while trades at `now - 15 minutes` (boundary) and at
`now - 14 minutes` are included, in ledger order. -/
theorem recent_trades_window_spec_witness :
    Stock.recent_trades
      [{ timestamp := 40, quantity := 1, direction := "BUY", price := 1 },
       { timestamp := 100, quantity := 1, direction := "BUY", price := 1 },
       { timestamp := 160, quantity := 1, direction := "SELL", price := 1 }]
      1000 =
      [{ timestamp := 100, quantity := 1, direction := "BUY", price := 1 },
       { timestamp := 160, quantity := 1, direction := "SELL", price := 1 }] ∧
    Stock.recent_trades
      [{ timestamp := 40, quantity := 1, direction := "BUY", price := 1 }]
      1000 = [] := by
  have h := recent_trades_window_spec
    [{ timestamp := 40, quantity := 1, direction := "BUY", price := 1 }] 1000
  refine ⟨by decide, h.2.2 ?_⟩
  decide

/-- C10: the recent-trades window has no upper bound: a trade dated
strictly later than `now` passes the filter, and a ledger made only of
future-dated trades is returned whole, so such trades feed directly
into `Stock.price` and every metric derived from it. -/
theorem future_trades_included (trades : List Trade) (now : Int) :
    (∀ t ∈ trades, now < t.timestamp → t ∈ Stock.recent_trades trades now) ∧
    ((∀ t ∈ trades, now < t.timestamp) →
      Stock.recent_trades trades now = trades) := by
  constructor
  · intro t ht hfut
    rw [Stock.recent_trades, List.mem_filter]
    refine ⟨ht, ?_⟩
    simp only [decide_eq_true_eq, minutes]
    omega
  · intro h
    rw [Stock.recent_trades, List.filter_eq_self]
    intro t ht
    have := h t ht
    simp only [decide_eq_true_eq, minutes]
    omega

/-- Witness for C10: a single trade one hour in the future is matched
by the window and determines the price. -/
theorem future_trades_included_witness :
    Stock.recent_trades
      [{ timestamp := 3600, quantity := 2, direction := "BUY", price := 7 }]
      0 =
      [{ timestamp := 3600, quantity := 2, direction := "BUY", price := 7 }] ∧
    Stock.price
      [{ timestamp := 3600, quantity := 2, direction := "BUY", price := 7 }]
      0 = PyResult.ok 7 := by
  have h := future_trades_included
    [{ timestamp := 3600, quantity := 2, direction := "BUY", price := 7 }] 0
  refine ⟨h.2 ?_, ?_⟩
  · decide
  · norm_num [Stock.price, Stock.recent_trades, minutes, List.filter,
      List.foldl]

/-- C6: the GBCE share index over an empty market raises (`reduce` over
an empty sequence is a `TypeError`) and never returns a numeric
result. -/
theorem share_index_empty_market_fails (now : Int) :
    Stocks.GBCE_share_index [] now =
      PyResult.exn ("TypeError")
        ("reduce() of empty sequence with no initial value") := rfl

/-- C2: for every stock with a nonzero price, `dividend_yield` is
`last_dividend / price` when the type is COMMON and
`(fixed_dividend * par_value) / price` when the type is PREFERRED, and
`PE_ratio` is `dividend_yield / price`. -/
theorem dividend_yield_pe_spec (s : Stock) (now : Int) (p : Rat)
    (hp : Stock.price s.trades now = PyResult.ok p) (hp0 : p ≠ 0) :
    (s.type = Stock.COMMON →
      Stock.dividend_yield s now =
        PyResult.ok (some ((s.last_dividend : Rat) / p)) ∧
      Stock.PE_ratio s now =
        PyResult.ok (((s.last_dividend : Rat) / p) / p)) ∧
    (s.type = Stock.PREFERRED →
      Stock.dividend_yield s now =
        PyResult.ok (some ((s.fixed_dividend * (s.par_value : Rat)) / p)) ∧
      Stock.PE_ratio s now =
        PyResult.ok (((s.fixed_dividend * (s.par_value : Rat)) / p) / p)) := by
  constructor
  · intro hty
    have hdy : Stock.dividend_yield s now =
        PyResult.ok (some ((s.last_dividend : Rat) / p)) := by
      simp [Stock.dividend_yield, hty, Stock.COMMON, hp, hp0]
    exact ⟨hdy, by simp [Stock.PE_ratio, hdy, hp, hp0]⟩
  · intro hty
    have hdy : Stock.dividend_yield s now =
        PyResult.ok (some ((s.fixed_dividend * (s.par_value : Rat)) / p)) := by
      simp [Stock.dividend_yield, hty, Stock.COMMON, Stock.PREFERRED, hp, hp0]
    exact ⟨hdy, by simp [Stock.PE_ratio, hdy, hp, hp0]⟩

/-- Witness for C2: a COMMON stock with `last_dividend = 23` and one
recent trade of 10 shares at 100 (price 100) has dividend yield
23/100 and P/E ratio 23/10000; a PREFERRED stock with
`fixed_dividend = 0.02`, `par_value = 100` and one recent trade at
price 50 has dividend yield 2/50 = 1/25. -/
theorem dividend_yield_pe_spec_witness :
    Stock.dividend_yield
      { symbol := "ALE", type := "Common", last_dividend := 23,
        fixed_dividend := 0, par_value := 100,
        trades := [{ timestamp := 0, quantity := 10, direction := "BUY",
                     price := 100 }] } 0 =
      PyResult.ok (some (23 / 100)) ∧
    Stock.PE_ratio
      { symbol := "ALE", type := "Common", last_dividend := 23,
        fixed_dividend := 0, par_value := 100,
        trades := [{ timestamp := 0, quantity := 10, direction := "BUY",
                     price := 100 }] } 0 =
      PyResult.ok (23 / 10000) ∧
    Stock.dividend_yield
      { symbol := "GIN", type := "Preferred", last_dividend := 8,
        fixed_dividend := 1 / 50, par_value := 100,
        trades := [{ timestamp := 0, quantity := 1, direction := "BUY",
                     price := 50 }] } 0 =
      PyResult.ok (some (1 / 25)) := by
  have hpc : Stock.price
      [({ timestamp := 0, quantity := 10, direction := "BUY",
          price := 100 } : Trade)] 0 = PyResult.ok 100 := by
    norm_num [Stock.price, Stock.recent_trades, minutes, List.filter,
      List.foldl]
  have hpp : Stock.price
      [({ timestamp := 0, quantity := 1, direction := "BUY",
          price := 50 } : Trade)] 0 = PyResult.ok 50 := by
    norm_num [Stock.price, Stock.recent_trades, minutes, List.filter,
      List.foldl]
  have hc := dividend_yield_pe_spec
    { symbol := "ALE", type := "Common", last_dividend := 23,
      fixed_dividend := 0, par_value := 100,
      trades := [{ timestamp := 0, quantity := 10, direction := "BUY",
                   price := 100 }] } 0 100 hpc (by norm_num)
  have hp := dividend_yield_pe_spec
    { symbol := "GIN", type := "Preferred", last_dividend := 8,
      fixed_dividend := 1 / 50, par_value := 100,
      trades := [{ timestamp := 0, quantity := 1, direction := "BUY",
                   price := 50 }] } 0 50 hpp (by norm_num)
  obtain ⟨hdy, hpe⟩ := hc.1 rfl
  obtain ⟨hdy2, -⟩ := hp.2 rfl
  refine ⟨?_, ?_, ?_⟩
  · rw [hdy]
    norm_num
  · rw [hpe]
    norm_num
  · rw [hdy2]
    norm_num

/-- C5: when `price` is 0 (for example over an empty 15-minute
window), `dividend_yield` and `PE_ratio` both raise
`ZeroDivisionError` — they never return 0 or any other sentinel. -/
theorem zero_price_metrics_fail (s : Stock) (now : Int)
    (hty : s.type = Stock.COMMON ∨ s.type = Stock.PREFERRED)
    (hp : Stock.price s.trades now = PyResult.ok 0) :
    Stock.dividend_yield s now =
      PyResult.exn ("ZeroDivisionError") ("division by zero") ∧
    Stock.PE_ratio s now =
      PyResult.exn ("ZeroDivisionError") ("division by zero") := by
  have hdy : Stock.dividend_yield s now =
      PyResult.exn ("ZeroDivisionError") ("division by zero") := by
    rcases hty with h | h <;>
      simp [Stock.dividend_yield, h, Stock.COMMON, Stock.PREFERRED, hp]
  exact ⟨hdy, by simp [Stock.PE_ratio, hdy]⟩

/-- Witness for C5: a COMMON stock with an empty ledger has price 0,
and both metrics raise. -/
theorem zero_price_metrics_fail_witness :
    Stock.dividend_yield
      { symbol := "TEA", type := "Common", last_dividend := 0,
        fixed_dividend := 0, par_value := 100, trades := [] } 0 =
      PyResult.exn ("ZeroDivisionError") ("division by zero") ∧
    Stock.PE_ratio
      { symbol := "TEA", type := "Common", last_dividend := 0,
        fixed_dividend := 0, par_value := 100, trades := [] } 0 =
      PyResult.exn ("ZeroDivisionError") ("division by zero") :=
  zero_price_metrics_fail
    { symbol := "TEA", type := "Common", last_dividend := 0,
      fixed_dividend := 0, par_value := 100, trades := [] } 0
    (Or.inl rfl) rfl

/-- C4: over a non-empty market whose ledgers satisfy the Trade
invariant (nonnegative quantities and nonnegative prices — the
invariant that also keeps the price product out of the negative-base
`ValueError` path of `**`), the GBCE share index is the geometric mean
of the stocks' prices, `(Π price_i) ^ (1/n)`; in particular a single
zero price collapses the index to 0. -/
theorem share_index_geometric_mean (stocks : List Stock) (now : Int)
    (hne : stocks ≠ [])
    (hq : ∀ s ∈ stocks, ∀ t ∈ s.trades, 0 ≤ t.quantity ∧ 0 ≤ t.price) :
    Stocks.GBCE_share_index stocks now =
      PyResult.ok
        ((((stocks.map (fun s => priceVal s.trades now)).prod : Rat) : Real) ^
          ((1 : Real) / (stocks.length : Real))) ∧
    ((∃ s ∈ stocks, priceVal s.trades now = 0) →
      Stocks.GBCE_share_index stocks now = PyResult.ok 0) := by
  have hquant : ∀ s ∈ stocks, ∀ t ∈ s.trades, 0 ≤ t.quantity :=
    fun s hs t ht => (hq s hs t ht).1
  have hmap := mapPrices_ok stocks now hquant
  have hpv : ∀ s ∈ stocks, 0 ≤ priceVal s.trades now :=
    fun s hs => priceVal_nonneg s.trades now (hq s hs)
  obtain ⟨s0, rest, rfl⟩ : ∃ s0 rest, stocks = s0 :: rest := by
    cases stocks with
    | nil => exact absurd rfl hne
    | cons a l => exact ⟨a, l, rfl⟩
  have hprodnn :
      0 ≤ ((s0 :: rest).map (fun s => priceVal s.trades now)).prod := by
    apply prod_nonneg_of_nonneg
    intro x hx
    rw [List.mem_map] at hx
    obtain ⟨s, hs, rfl⟩ := hx
    exact hpv s hs
  have hmain : Stocks.GBCE_share_index (s0 :: rest) now =
      PyResult.ok
        (((((s0 :: rest).map (fun s => priceVal s.trades now)).prod : Rat) :
            Real) ^ ((1 : Real) / ((s0 :: rest).length : Real))) := by
    rw [List.map_cons] at hprodnn
    unfold Stocks.GBCE_share_index
    rw [hmap]
    simp only [List.map_cons]
    rw [foldl_mul_eq_prod, ← List.prod_cons]
    rw [if_neg]
    intro hcon
    exact absurd hcon.1 (not_lt.mpr hprodnn)
  refine ⟨hmain, ?_⟩
  rintro ⟨s, hs, hzero⟩
  rw [hmain]
  have hprodz : ((s0 :: rest).map (fun s => priceVal s.trades now)).prod = 0 := by
    apply List.prod_eq_zero
    rw [List.mem_map]
    exact ⟨s, hs, hzero⟩
  rw [hprodz]
  have hlen : ((s0 :: rest).length : Real) ≠ 0 :=
    Nat.cast_ne_zero.mpr (by simp)
  rw [Rat.cast_zero, Real.zero_rpow (one_div_ne_zero hlen)]

/-- Witness for C4: a market of two stocks trading at prices 1 and 4
has share index `(1*4)^(1/2) = 2`. -/
theorem share_index_geometric_mean_witness :
    Stocks.GBCE_share_index
      [{ symbol := "A", type := "Common", last_dividend := 0,
         fixed_dividend := 0, par_value := 100,
         trades := [{ timestamp := 0, quantity := 1, direction := "BUY",
                      price := 1 }] },
       { symbol := "B", type := "Common", last_dividend := 0,
         fixed_dividend := 0, par_value := 100,
         trades := [{ timestamp := 0, quantity := 1, direction := "BUY",
                      price := 4 }] }] 0 = PyResult.ok 2 := by
  have h := share_index_geometric_mean
    [{ symbol := "A", type := "Common", last_dividend := 0,
       fixed_dividend := 0, par_value := 100,
       trades := [{ timestamp := 0, quantity := 1, direction := "BUY",
                    price := 1 }] },
     { symbol := "B", type := "Common", last_dividend := 0,
       fixed_dividend := 0, par_value := 100,
       trades := [{ timestamp := 0, quantity := 1, direction := "BUY",
                    price := 4 }] }] 0 (by simp)
    (by
      intro s hs t ht
      refine ⟨?_, ?_⟩ <;> fin_cases hs <;> fin_cases ht <;> decide)
  rw [h.1]
  have h1 : priceVal
      [({ timestamp := 0, quantity := 1, direction := "BUY",
          price := 1 } : Trade)] 0 = 1 := by
    norm_num [priceVal, totalNotional, totalQuantity, Stock.recent_trades,
      minutes, List.filter]
  have h4 : priceVal
      [({ timestamp := 0, quantity := 1, direction := "BUY",
          price := 4 } : Trade)] 0 = 4 := by
    norm_num [priceVal, totalNotional, totalQuantity, Stock.recent_trades,
      minutes, List.filter]
  simp only [List.map_cons, List.map_nil, List.length_cons, List.length_nil,
    h1, h4, List.prod_cons, List.prod_nil]
  norm_num
  have hpow : ((4 : Real)) ^ ((1 : Real) / 2) = 2 := by
    have h2 : (4 : Real) = (2 : Real) ^ (2 : Nat) := by norm_num
    rw [h2, ← Real.rpow_natCast (2 : Real) 2,
      ← Real.rpow_mul (by norm_num : (0 : Real) ≤ 2)]
    norm_num
  rw [hpow]

/-- C7 counterexample: on a stock state whose `type` is neither COMMON
nor PREFERRED, `dividend_yield` returns Python `None` (embedded
`ok none`) — it does not raise any error, contrary to the claim that it
fails with a DomainError. -/
theorem dividend_yield_unknown_type_cex :
    Stock.dividend_yield
      { symbol := "X", type := "Bogus", last_dividend := 5,
        fixed_dividend := 0, par_value := 100, trades := [] } 0 =
      PyResult.ok none := by
  decide

/-- C7 amended: `Stock.__init__` rejects (AssertionError) every type
outside {COMMON, PREFERRED}, so no such stock is constructible; the
`dividend_yield` function itself, applied to such a state, falls
through both branches and returns `None` rather than raising. -/
theorem unknown_type_behavior (s : Stock) (now : Int)
    (h1 : s.type ≠ Stock.COMMON) (h2 : s.type ≠ Stock.PREFERRED) :
    Stock.dividend_yield s now = PyResult.ok none ∧
    Stock.init s.symbol s.type s.last_dividend s.fixed_dividend s.par_value =
      PyResult.exn ("AssertionError")
        ("Stock type must be \x27Common\x27 or \x27Preferred\x27") := by
  constructor
  · simp [Stock.dividend_yield, h1, h2]
  · simp [Stock.init, h1, h2]

/-- Witness for C7 amended, at a concrete bogus type. -/
theorem unknown_type_behavior_witness :
    Stock.dividend_yield
      { symbol := "Y", type := "Convertible", last_dividend := 8,
        fixed_dividend := 0, par_value := 100, trades := [] } 3 =
      PyResult.ok none ∧
    Stock.init ("Y") ("Convertible") 8 0 100 =
      PyResult.exn ("AssertionError")
        ("Stock type must be \x27Common\x27 or \x27Preferred\x27") :=
  unknown_type_behavior
    { symbol := "Y", type := "Convertible", last_dividend := 8,
      fixed_dividend := 0, par_value := 100, trades := [] } 3
    (by decide) (by decide)

/-- C8 counterexample: a trade with negative quantity, a direction
outside {BUY, SELL} and a negative price is constructed and recorded
without any failure — contrary to the claim that such inputs are
rejected. -/
theorem trade_negative_fields_recorded_cex :
    (Stock.trade
      { symbol := "TEA", type := "Common", last_dividend := 0,
        fixed_dividend := 0, par_value := 100, trades := [] }
      0 (-7) ("HOLD") (-3)).trades =
    [{ timestamp := 0, quantity := -7, direction := "HOLD",
       price := -3 }] := by
  decide

/-- C8 amended: trade construction and recording perform no validation
at all: for every input — including negative quantities, negative
prices and arbitrary direction strings — `Stock.trade` succeeds,
appends exactly one trade, and that trade stores the given fields
verbatim. -/
theorem trade_no_validation (s : Stock) (ts : Int) (q : Int) (d : String)
    (p : Rat) :
    (Stock.trade s ts q d p).trades.length = s.trades.length + 1 ∧
    (Stock.trade s ts q d p).trades.getLast? =
      some { timestamp := ts, quantity := q, direction := d, price := p } ∧
    ∀ t ∈ s.trades, t ∈ (Stock.trade s ts q d p).trades := by
  refine ⟨?_, ?_, ?_⟩
  · simp [Stock.trade]
  · simp [Stock.trade, Trade.init]
  · intro t ht
    simp [Stock.trade]
    exact Or.inl ht

/-- Witness for C8 amended, at concrete invalid field values. -/
theorem trade_no_validation_witness :
    (Stock.trade
      { symbol := "POP", type := "Common", last_dividend := 8,
        fixed_dividend := 0, par_value := 100, trades := [] }
      5 (-1) ("X") (-2)).trades.length = 1 ∧
    (Stock.trade
      { symbol := "POP", type := "Common", last_dividend := 8,
        fixed_dividend := 0, par_value := 100, trades := [] }
      5 (-1) ("X") (-2)).trades.getLast? =
      some { timestamp := 5, quantity := -1, direction := "X",
             price := -2 } := by
  have h := trade_no_validation
    { symbol := "POP", type := "Common", last_dividend := 8,
      fixed_dividend := 0, par_value := 100, trades := [] }
    5 (-1) ("X") (-2)
  exact ⟨h.1, h.2.1⟩

/-- C9: `Stocks.get` returns the matching stock for every symbol
present in the market, and for every absent symbol it raises a
`ValueError` whose message carries the offending symbol. -/
theorem get_lookup_spec (stocks : List Stock) (symbol : String) :
    ((∃ s ∈ stocks, s.symbol = symbol) →
      ∃ s, Stocks.get stocks symbol = PyResult.ok s ∧ s ∈ stocks ∧
        s.symbol = symbol) ∧
    ((∀ s ∈ stocks, s.symbol ≠ symbol) →
      Stocks.get stocks symbol =
        PyResult.exn ("ValueError")
          ("Stock symbol \x27" ++ symbol ++ "\x27 is not registered")) := by
  constructor
  · intro hex
    have hsome : (stocks.find? (fun s => decide (s.symbol = symbol))).isSome := by
      rw [List.find?_isSome]
      obtain ⟨s, hs, he⟩ := hex
      exact ⟨s, hs, by simpa using he⟩
    obtain ⟨s, hfind⟩ := Option.isSome_iff_exists.mp hsome
    refine ⟨s, ?_, List.mem_of_find?_eq_some hfind, ?_⟩
    · simp [Stocks.get, hfind]
    · simpa using List.find?_some hfind
  · intro hall
    have hnone : stocks.find? (fun s => decide (s.symbol = symbol)) = none := by
      rw [List.find?_eq_none]
      intro s hs
      simpa using hall s hs
    simp [Stocks.get, hnone]

/-- Witness for C9: in a one-stock market, looking up the present
symbol returns that stock, and looking up UNKNOWN raises a
`ValueError` naming UNKNOWN. -/
theorem get_lookup_spec_witness :
    Stocks.get
      [{ symbol := "GIN", type := "Preferred", last_dividend := 8,
         fixed_dividend := 0, par_value := 100, trades := [] }]
      ("GIN") =
      PyResult.ok
        { symbol := "GIN", type := "Preferred", last_dividend := 8,
          fixed_dividend := 0, par_value := 100, trades := [] } ∧
    Stocks.get
      [{ symbol := "GIN", type := "Preferred", last_dividend := 8,
         fixed_dividend := 0, par_value := 100, trades := [] }]
      ("UNKNOWN") =
      PyResult.exn ("ValueError")
        ("Stock symbol \x27" ++ "UNKNOWN" ++ "\x27 is not registered") := by
  have h := get_lookup_spec
    [{ symbol := "GIN", type := "Preferred", last_dividend := 8,
       fixed_dividend := 0, par_value := 100, trades := [] }]
    ("UNKNOWN")
  exact ⟨by decide, h.2 (by decide)⟩
